import Mathlib

/-!
Verification of the AI interview detector: a shallow embedding of the
rule-based classifier (`src/ml_classifier.py`), the session-reporting
server (`server/detection_server.py`) and the client-side alert monitors
(`main_detector.py`, `client/candidate_detector.py`), together with
theorems settling the specified properties.

Python floats are modelled as exact rationals (ℚ); timestamps as natural
numbers counting seconds; Python dicts holding per-session records as
insertion-ordered association lists.
-/

namespace AIDetect

/-- Feature dictionary passed to the classifier.
Mirrors the three keys read by `_rule_based_prediction`
(`features.get(..., 0.0)` with the key present). -/
structure Features where
  process_score : ℚ
  audio_score : ℚ
  behavior_score : ℚ
deriving Repr, DecidableEq

/-- Embedding of `AIDetectionClassifier._rule_based_prediction` (ml_classifier.py,
lines 59–89): weighted combination 0.4/0.35/0.25, then the max-score
boost (`max_score > 0.9` ⇒ `combined = max(combined, 0.85)`), then the
two-high-scores boost (`high_scores >= 2` ⇒
`combined = min(1.0, combined + 0.15)`). -/
def rule_based_prediction (f : Features) : ℚ :=
  let combined_score :=
    f.process_score * (4/10) + f.audio_score * (35/100) + f.behavior_score * (25/100)
  let max_score := max f.process_score (max f.audio_score f.behavior_score)
  let combined_score :=
    if max_score > 9/10 then max combined_score (85/100) else combined_score
  let high_scores : Nat :=
    (if f.process_score > 6/10 then 1 else 0) +
    (if f.audio_score > 6/10 then 1 else 0) +
    (if f.behavior_score > 6/10 then 1 else 0)
  let combined_score :=
    if high_scores ≥ 2 then min 1 (combined_score + 15/100) else combined_score
  combined_score

/-- Embedding of `AIDetectionClassifier.predict` in the rule-based mode (no trained
model loaded, `is_trained = False`): delegates to
`_rule_based_prediction`. -/
def predict (f : Features) : ℚ :=
  rule_based_prediction f

/-- Reference definition written from the spec's words (§4.2): combined
weighted sum, then the max-score boost, then the boost when at least two
of the three scores exceed 0.6, stated as a disjunction of pairs. Used
only to compare against `rule_based_prediction`. -/
def spec_rule_prediction (f : Features) : ℚ :=
  let c0 := (4/10) * f.process_score + (35/100) * f.audio_score + (25/100) * f.behavior_score
  let c1 :=
    if max f.process_score (max f.audio_score f.behavior_score) > 9/10
    then max c0 (85/100) else c0
  let twoHigh : Prop :=
    (f.process_score > 6/10 ∧ f.audio_score > 6/10) ∨
    (f.process_score > 6/10 ∧ f.behavior_score > 6/10) ∨
    (f.audio_score > 6/10 ∧ f.behavior_score > 6/10)
  if twoHigh then min 1 (c1 + 15/100) else c1

/-! ## Server-side data model (server/detection_server.py) -/

/-- Session status strings used by the server
(`waiting`, `active`, `ended`, `disconnected`). -/
inductive Status where
  | waiting
  | active
  | ended
  | disconnected
deriving Repr, DecidableEq

/-- Alert severity strings (`MEDIUM`, `HIGH`, `CRITICAL`). -/
inductive Severity where
  | medium
  | high
  | critical
deriving Repr, DecidableEq

/-- Alert type strings. -/
inductive AlertTy where
  | process_detection
  | audio_anomaly
  | clipboard_detection
  | typing_anomaly
  | ai_detection
deriving Repr, DecidableEq

/-- An alert record. The source's dict also carries a `timestamp` and a
formatted `details` string; the claims only concern `type` and
`severity`, so only those two fields are embedded. -/
structure Alert where
  ty : AlertTy
  severity : Severity
deriving Repr, DecidableEq

/-- Entry of the server's `session_tokens` dict: token, candidate name,
creation time and a status field (written by `create_session` and
`receive_detection_report`). -/
structure SessionTokenRec where
  token : String
  candidate_name : String
  created_at : Nat
  status : Status
deriving Repr, DecidableEq

/-- Entry of the server's `active_sessions` dict, written on every
successfully authenticated report. -/
structure ActiveSession where
  candidate_name : String
  last_update : Nat
  detection_score : ℚ
  alerts : List Alert
  process_score : ℚ
  audio_score : ℚ
  behavior_score : ℚ
  suspicious_processes : List String
  status : Status
deriving Repr, DecidableEq

/-- The wire payload posted to `/api/report` (fields read by
`receive_detection_report`; the source defaults missing fields, here the
fields are present). -/
structure Report where
  session_id : String
  token : String
  detection_score : ℚ
  process_score : ℚ
  audio_score : ℚ
  behavior_score : ℚ
  alerts : List Alert
  suspicious_processes : List String
deriving Repr, DecidableEq

/-- Events emitted on the socket.io channel. -/
inductive Event where
  | candidate_update (session_id : String) (data : ActiveSession)
  | high_risk_alert (session_id : String) (candidate_name : String) (score : ℚ)
  | session_ended (session_id : String) (candidate_name : String)
      (final_score : ℚ) (total_alerts : Nat) (ended_at : Nat)
deriving Repr, DecidableEq

/-- Insertion-ordered association list standing for a Python dict.
`dictLookup` is `d[k]` / `k in d`; `dictInsert` is `d[k] = v`
(replace in place, or append at the end when the key is new). -/
def dictLookup {α : Type} (m : List (String × α)) (k : String) : Option α :=
  match m with
  | [] => none
  | (k', v) :: rest => if k' = k then some v else dictLookup rest k

/-- Assignment `d[k] = v` on an insertion-ordered dict. -/
def dictInsert {α : Type} (m : List (String × α)) (k : String) (v : α) :
    List (String × α) :=
  match m with
  | [] => [(k, v)]
  | (k', v') :: rest =>
    if k' = k then (k, v) :: rest else (k', v') :: dictInsert rest k v

/-- The server's two module-level dicts. -/
structure ServerState where
  session_tokens : List (String × SessionTokenRec)
  active_sessions : List (String × ActiveSession)
deriving Repr, DecidableEq

/-- Response of `/api/report`: an HTTP status code and the body string
(the value of the `error` key, or `success`). -/
structure ReportResponse where
  code : Nat
  body : String
deriving Repr, DecidableEq

/-- Embedding of `create_session` (detection_server.py, lines 30–52): records the
freshly generated `(session_id, token)` pair with status `waiting`.
The random generation of `session_id`/`token` and the HTTP response are
outside the registry state; the generated values arrive as arguments. -/
def create_session (st : ServerState) (now : Nat)
    (candidate_name session_id session_token : String) : ServerState :=
  { st with
    session_tokens := dictInsert st.session_tokens session_id
      { token := session_token
        candidate_name := candidate_name
        created_at := now
        status := Status.waiting } }

/-- Embedding of `receive_detection_report` (detection_server.py, lines 54–98):
authenticate (unknown id ⇒ 401 `Invalid session`; token mismatch ⇒ 401
`Invalid token`), then set the token record's status to `active`,
overwrite the `active_sessions` entry with the report's fields and a
fresh `last_update`, emit `candidate_update`, and additionally
`high_risk_alert` when `detection_score > 0.75`. -/
def receive_detection_report (st : ServerState) (now : Nat) (r : Report) :
    ServerState × ReportResponse × List Event :=
  match dictLookup st.session_tokens r.session_id with
  | none => (st, { code := 401, body := "Invalid session" }, [])
  | some tok =>
    if tok.token ≠ r.token then
      (st, { code := 401, body := "Invalid token" }, [])
    else
      let tok' := { tok with status := Status.active }
      let sess : ActiveSession :=
        { candidate_name := tok.candidate_name
          last_update := now
          detection_score := r.detection_score
          alerts := r.alerts
          process_score := r.process_score
          audio_score := r.audio_score
          behavior_score := r.behavior_score
          suspicious_processes := r.suspicious_processes
          status := Status.active }
      let st' : ServerState :=
        { session_tokens := dictInsert st.session_tokens r.session_id tok'
          active_sessions := dictInsert st.active_sessions r.session_id sess }
      let events :=
        Event.candidate_update r.session_id sess ::
          (if r.detection_score > 75/100 then
            [Event.high_risk_alert r.session_id tok.candidate_name r.detection_score]
          else [])
      (st', { code := 200, body := "success" }, events)

/-- Staleness window of `get_all_sessions`: 5 minutes, in seconds. -/
def staleWindow : Nat := 300

/-- One entry of the reclassification loop in `get_all_sessions`:
a session whose `last_update` is more than 5 minutes before `now` has
its status set to `disconnected` (in place). -/
def markStale (now : Nat) (d : ActiveSession) : ActiveSession :=
  if now - d.last_update > staleWindow then
    { d with status := Status.disconnected }
  else d

/-- Embedding of `get_all_sessions` (detection_server.py, lines 100–113): mutate each
stale entry's status to `disconnected`, then return the whole
`active_sessions` dict together with `total_sessions = len(...)`. -/
def get_all_sessions (st : ServerState) (now : Nat) :
    ServerState × List (String × ActiveSession) × Nat :=
  let active' := st.active_sessions.map (fun kv => (kv.1, markStale now kv.2))
  ({ st with active_sessions := active' }, active', active'.length)

/-- Embedding of `get_session_details` (detection_server.py, lines 115–120): the
entry when present, else a 404. `none` stands for the
`('Session not found', 404)` response. -/
def get_session_details (st : ServerState) (session_id : String) :
    Option ActiveSession :=
  dictLookup st.active_sessions session_id

/-- Embedding of `end_session` (detection_server.py, lines 128–147): when the id is
in `active_sessions`, set its status to `ended`, emit `session_ended`
with the final report and return it (HTTP 200); otherwise 404 and no
change. -/
def end_session (st : ServerState) (now : Nat) (session_id : String) :
    ServerState × Nat × List Event :=
  match dictLookup st.active_sessions session_id with
  | some d =>
    let d' := { d with status := Status.ended }
    let st' := { st with
      active_sessions := dictInsert st.active_sessions session_id d' }
    (st', 200,
      [Event.session_ended session_id d.candidate_name d.detection_score
        d.alerts.length now])
  | none => (st, 404, [])

/-- A registry operation, for lifecycle claims quantifying over
arbitrary sequences of server requests. -/
inductive Op where
  | create (candidate_name session_id session_token : String)
  | report (r : Report)
  | listSessions
  | details (session_id : String)
  | endSession (session_id : String)
deriving Repr, DecidableEq

/-- State reached after one server request. -/
def applyOp (st : ServerState) (now : Nat) : Op → ServerState
  | Op.create name sid tok => create_session st now name sid tok
  | Op.report r => (receive_detection_report st now r).1
  | Op.listSessions => (get_all_sessions st now).1
  | Op.details _ => st
  | Op.endSession sid => (end_session st now sid).1

/-! ## Client-side monitors (main_detector.py, client/candidate_detector.py) -/

/-- Audio features returned by `AudioAnalyzer.analyze_realtime_audio`
(the two keys the monitors read). -/
structure AudioFeatures where
  pause_pattern_score : ℚ
  fluency_score : ℚ
deriving Repr, DecidableEq

/-- One iteration of `AIInterviewDetector._monitor_audio`
(main_detector.py, lines 82–106): when the analyzer returns features and
`pause_pattern_score > 0.7` AND `fluency_score > 0.8`, append a MEDIUM
`AUDIO_ANOMALY` alert. -/
def main_monitor_audio_cycle (alerts : List Alert)
    (audio_features : Option AudioFeatures) : List Alert :=
  match audio_features with
  | none => alerts
  | some af =>
    if af.pause_pattern_score > 7/10 ∧ af.fluency_score > 8/10 then
      alerts ++ [{ ty := AlertTy.audio_anomaly, severity := Severity.medium }]
    else alerts

/-- One iteration of `CandidateDetectorClient._monitor_audio`
(candidate_detector.py, lines 125–147): when the analyzer returns
features and `pause_pattern_score > 0.7`, append a MEDIUM
`AUDIO_ANOMALY` alert (fluency is not consulted). -/
def client_monitor_audio_cycle (alerts : List Alert)
    (audio_features : Option AudioFeatures) : List Alert :=
  match audio_features with
  | none => alerts
  | some af =>
    if af.pause_pattern_score > 7/10 then
      alerts ++ [{ ty := AlertTy.audio_anomaly, severity := Severity.medium }]
    else alerts

/-- Client-side detector state touched by `_analyze_patterns`:
`detection_scores` is a `deque(maxlen=100)` (most recent last) and
`alerts` the alert log. -/
structure DetectorState where
  detection_scores : List ℚ
  alerts : List Alert
deriving Repr, DecidableEq

/-- Python's `deque(maxlen=n).append`: append, evicting from the front past
capacity. -/
def dequeAppend (maxlen : Nat) (xs : List ℚ) (x : ℚ) : List ℚ :=
  let ys := xs ++ [x]
  if maxlen < ys.length then ys.drop (ys.length - maxlen) else ys

/-- Python's `list[-10:]`: the last `n` elements. -/
def lastN (n : Nat) (xs : List ℚ) : List ℚ :=
  xs.drop (xs.length - n)

/-- Arithmetic mean (`np.mean`) of a list. -/
def mean (xs : List ℚ) : ℚ :=
  xs.sum / xs.length

/-- One iteration of `AIInterviewDetector._analyze_patterns`
(main_detector.py, lines 141–173): predict on the collected features,
append to `detection_scores`; then, only when `len(detection_scores) >
10`, compute the mean of the last 10 scores and, when it exceeds 0.75,
append a CRITICAL `AI_DETECTION` alert. -/
def analyze_patterns_cycle (st : DetectorState) (features : Features) :
    DetectorState :=
  let ai_probability := predict features
  let scores := dequeAppend 100 st.detection_scores ai_probability
  if 10 < scores.length then
    let avg_score := mean (lastN 10 scores)
    if avg_score > 75/100 then
      { detection_scores := scores
        alerts := st.alerts ++
          [{ ty := AlertTy.ai_detection, severity := Severity.critical }] }
    else { detection_scores := scores, alerts := st.alerts }
  else { detection_scores := scores, alerts := st.alerts }

/-! ## Theorems -/

/-- Both boost stages of `_rule_based_prediction` preserve the unit
interval: shared helper for the range claims. -/
theorem step_bounds (c : ℚ) (p q : Prop) [Decidable p] [Decidable q]
    (h0 : 0 ≤ c) (h1 : c ≤ 1) :
    0 ≤ (if q then min 1 ((if p then max c (85/100) else c) + 15/100)
         else (if p then max c (85/100) else c)) ∧
      (if q then min 1 ((if p then max c (85/100) else c) + 15/100)
       else (if p then max c (85/100) else c)) ≤ 1 := by
  set d := (if p then max c (85/100) else c) with hd
  have d0 : 0 ≤ d := by
    rw [hd]
    split_ifs with h
    · exact le_max_of_le_left h0
    · exact h0
  have d1 : d ≤ 1 := by
    rw [hd]
    split_ifs with h
    · exact max_le h1 (by norm_num)
    · exact h1
  constructor
  · split_ifs with hq
    · exact le_min (by norm_num) (by linarith)
    · exact d0
  · split_ifs with hq
    · exact min_le_left _ _
    · exact d1

/-- C1: for every feature input, the rule-based classifier's `predict`
equals the reference definition from the spec (weighted sum 0.4/0.35/0.25,
then the max-score boost, then the two-high-scores boost, in that fixed
order); in particular `predict {0.95, 0, 0}` yields a value ≥ 0.85. -/
theorem predict_matches_spec_reference :
    (∀ f : Features, predict f = spec_rule_prediction f) ∧
      85/100 ≤ predict
        { process_score := 95/100, audio_score := 0, behavior_score := 0 } := by
  constructor
  · intro f
    simp only [predict, rule_based_prediction, spec_rule_prediction]
    have hbase : f.process_score * (4/10) + f.audio_score * (35/100) +
        f.behavior_score * (25/100) =
        (4/10) * f.process_score + (35/100) * f.audio_score +
          (25/100) * f.behavior_score := by ring
    have hcount :
        ((if f.process_score > 6/10 then 1 else 0) +
          (if f.audio_score > 6/10 then 1 else 0) +
          (if f.behavior_score > 6/10 then (1:Nat) else 0) ≥ 2) ↔
        ((f.process_score > 6/10 ∧ f.audio_score > 6/10) ∨
          (f.process_score > 6/10 ∧ f.behavior_score > 6/10) ∨
          (f.audio_score > 6/10 ∧ f.behavior_score > 6/10)) := by
      by_cases hp : f.process_score > 6/10 <;>
        by_cases ha : f.audio_score > 6/10 <;>
          by_cases hb : f.behavior_score > 6/10 <;>
            simp [hp, ha, hb]
    by_cases h2 : (f.process_score > 6/10 ∧ f.audio_score > 6/10) ∨
        (f.process_score > 6/10 ∧ f.behavior_score > 6/10) ∨
        (f.audio_score > 6/10 ∧ f.behavior_score > 6/10)
    · rw [if_pos (hcount.mpr h2), if_pos h2, hbase]
    · rw [if_neg (fun hc => h2 (hcount.mp hc)), if_neg h2, hbase]
  · norm_num [predict, rule_based_prediction]

/-- C2: for all scores in [0,1], the rule-based `predict` output is in
[0,1]. -/
theorem predict_unit_interval (f : Features)
    (hp0 : 0 ≤ f.process_score) (hp1 : f.process_score ≤ 1)
    (ha0 : 0 ≤ f.audio_score) (ha1 : f.audio_score ≤ 1)
    (hb0 : 0 ≤ f.behavior_score) (hb1 : f.behavior_score ≤ 1) :
    0 ≤ predict f ∧ predict f ≤ 1 := by
  have c0 : 0 ≤ f.process_score * (4/10) + f.audio_score * (35/100) +
      f.behavior_score * (25/100) := by linarith
  have c1 : f.process_score * (4/10) + f.audio_score * (35/100) +
      f.behavior_score * (25/100) ≤ 1 := by linarith
  unfold predict rule_based_prediction
  exact step_bounds _ _ _ c0 c1

/-- Witness for C2 at scores (1/2, 1/2, 1/2). -/
theorem predict_unit_interval_witness :
    0 ≤ predict { process_score := 1/2, audio_score := 1/2, behavior_score := 1/2 } ∧
      predict { process_score := 1/2, audio_score := 1/2, behavior_score := 1/2 } ≤ 1 :=
  predict_unit_interval
    { process_score := 1/2, audio_score := 1/2, behavior_score := 1/2 }
    (by norm_num) (by norm_num) (by norm_num) (by norm_num) (by norm_num)
    (by norm_num)

/-! ### Dictionary lemmas -/

theorem dictLookup_insert_self {α : Type} (m : List (String × α)) (k : String)
    (v : α) : dictLookup (dictInsert m k v) k = some v := by
  induction m with
  | nil => simp [dictInsert, dictLookup]
  | cons kv rest ih =>
    simp only [dictInsert]
    split_ifs with h
    · simp [dictLookup]
    · simp [dictLookup, h, ih]

theorem dictLookup_insert_other {α : Type} (m : List (String × α))
    (k k' : String) (v : α) (hne : k ≠ k') :
    dictLookup (dictInsert m k v) k' = dictLookup m k' := by
  induction m with
  | nil => simp [dictInsert, dictLookup, hne]
  | cons kv rest ih =>
    simp only [dictInsert]
    split_ifs with h
    · simp [dictLookup, h, hne]
    · simp [dictLookup, ih]

theorem dictLookup_map {α β : Type} (g : α → β) (m : List (String × α))
    (k : String) :
    dictLookup (m.map (fun kv => (kv.1, g kv.2))) k =
      (dictLookup m k).map g := by
  induction m with
  | nil => rfl
  | cons kv rest ih =>
    simp only [List.map, dictLookup]
    split_ifs <;> simp [ih]

/-! ### Claim theorems about the server -/

/-- C3 counterexample: with one registered session `s1`/`tok1`, the
401 response for an unknown session id (`Invalid session`) differs from
the 401 response for a known id with a wrong token (`Invalid token`),
so the rejection is not generic. -/
theorem auth_rejection_not_generic_counterexample :
    (receive_detection_report
        { session_tokens := [("s1",
            { token := "tok1", candidate_name := "Alice", created_at := 0
              status := Status.waiting })]
          active_sessions := [] } 10
        { session_id := "s2", token := "tok1", detection_score := 0
          process_score := 0, audio_score := 0, behavior_score := 0
          alerts := [], suspicious_processes := [] }).2.1 ≠
      (receive_detection_report
        { session_tokens := [("s1",
            { token := "tok1", candidate_name := "Alice", created_at := 0
              status := Status.waiting })]
          active_sessions := [] } 10
        { session_id := "s1", token := "bad", detection_score := 0
          process_score := 0, audio_score := 0, behavior_score := 0
          alerts := [], suspicious_processes := [] }).2.1 := by
  simp [receive_detection_report, dictLookup]

/-- C3 (amended): report authentication fails with a 401 whenever the
session id is unknown or the token mismatches, but the response body
distinguishes the two cases: `Invalid session` for an unknown id,
`Invalid token` for a known id with the wrong token. -/
theorem auth_rejection_cases (st : ServerState) (now : Nat) (r : Report) :
    (dictLookup st.session_tokens r.session_id = none →
      (receive_detection_report st now r).2.1 =
        { code := 401, body := "Invalid session" }) ∧
    (∀ tok, dictLookup st.session_tokens r.session_id = some tok →
      tok.token ≠ r.token →
      (receive_detection_report st now r).2.1 =
        { code := 401, body := "Invalid token" }) := by
  constructor
  · intro h
    simp [receive_detection_report, h]
  · intro tok h hne
    simp [receive_detection_report, h, hne]

/-- Witness for C3 (amended): one registered session `s1`; an unknown
id gives `Invalid session`, a wrong token gives `Invalid token`. -/
theorem auth_rejection_cases_witness :
    (receive_detection_report
        { session_tokens := [("s1",
            { token := "tok1", candidate_name := "Alice", created_at := 0
              status := Status.waiting })]
          active_sessions := [] } 10
        { session_id := "s2", token := "tok1", detection_score := 0
          process_score := 0, audio_score := 0, behavior_score := 0
          alerts := [], suspicious_processes := [] }).2.1 =
      { code := 401, body := "Invalid session" } ∧
    (receive_detection_report
        { session_tokens := [("s1",
            { token := "tok1", candidate_name := "Alice", created_at := 0
              status := Status.waiting })]
          active_sessions := [] } 10
        { session_id := "s1", token := "bad", detection_score := 0
          process_score := 0, audio_score := 0, behavior_score := 0
          alerts := [], suspicious_processes := [] }).2.1 =
      { code := 401, body := "Invalid token" } := by
  constructor
  · exact (auth_rejection_cases _ 10 _).1 (by simp [dictLookup])
  · exact (auth_rejection_cases _ 10 _).2
      { token := "tok1", candidate_name := "Alice", created_at := 0
        status := Status.waiting }
      (by simp [dictLookup]) (by simp)

/-- C9: on any failed authentication (unknown id or token mismatch) the
server answers 401, the registry state is unchanged, and no broadcast
event is emitted. -/
theorem auth_failure_atomic (st : ServerState) (now : Nat) (r : Report)
    (h : dictLookup st.session_tokens r.session_id = none ∨
      ∃ tok, dictLookup st.session_tokens r.session_id = some tok ∧
        tok.token ≠ r.token) :
    (receive_detection_report st now r).2.1.code = 401 ∧
      (receive_detection_report st now r).1 = st ∧
      (receive_detection_report st now r).2.2 = [] := by
  rcases h with h | ⟨tok, h, hne⟩
  · simp [receive_detection_report, h]
  · simp [receive_detection_report, h, hne]

/-- Witness for C9: wrong token against the registered session `s1`. -/
theorem auth_failure_atomic_witness :
    (receive_detection_report
        { session_tokens := [("s1",
            { token := "tok1", candidate_name := "Alice", created_at := 0
              status := Status.waiting })]
          active_sessions := [] } 10
        { session_id := "s1", token := "bad", detection_score := 0
          process_score := 0, audio_score := 0, behavior_score := 0
          alerts := [], suspicious_processes := [] }).2.1.code = 401 ∧
      (receive_detection_report
        { session_tokens := [("s1",
            { token := "tok1", candidate_name := "Alice", created_at := 0
              status := Status.waiting })]
          active_sessions := [] } 10
        { session_id := "s1", token := "bad", detection_score := 0
          process_score := 0, audio_score := 0, behavior_score := 0
          alerts := [], suspicious_processes := [] }).1 =
        { session_tokens := [("s1",
            { token := "tok1", candidate_name := "Alice", created_at := 0
              status := Status.waiting })]
          active_sessions := [] } ∧
      (receive_detection_report
        { session_tokens := [("s1",
            { token := "tok1", candidate_name := "Alice", created_at := 0
              status := Status.waiting })]
          active_sessions := [] } 10
        { session_id := "s1", token := "bad", detection_score := 0
          process_score := 0, audio_score := 0, behavior_score := 0
          alerts := [], suspicious_processes := [] }).2.2 = [] := by
  exact auth_failure_atomic _ 10 _
    (Or.inr ⟨{ token := "tok1", candidate_name := "Alice", created_at := 0
               status := Status.waiting },
      by simp [dictLookup], by simp⟩)

/-- Shared helper: the full effect of a successfully authenticated
report on the registry state. -/
theorem ingest_success (st : ServerState) (now : Nat) (r : Report)
    (tok : SessionTokenRec)
    (h : dictLookup st.session_tokens r.session_id = some tok)
    (htok : tok.token = r.token) :
    (receive_detection_report st now r).1 =
      { session_tokens := dictInsert st.session_tokens r.session_id
          { tok with status := Status.active }
        active_sessions := dictInsert st.active_sessions r.session_id
          { candidate_name := tok.candidate_name
            last_update := now
            detection_score := r.detection_score
            alerts := r.alerts
            process_score := r.process_score
            audio_score := r.audio_score
            behavior_score := r.behavior_score
            suspicious_processes := r.suspicious_processes
            status := Status.active } } := by
  simp [receive_detection_report, h, htok]

/-- C5: at list-query time, a session whose `last_update` is more than
5 minutes (strictly more than 300 seconds) before the query time is
reported with status `disconnected`, and a session within the window is
reported unchanged. -/
theorem stale_classification (st : ServerState) (now : Nat) (sid : String)
    (d : ActiveSession)
    (h : dictLookup st.active_sessions sid = some d) :
    (now - d.last_update > staleWindow →
      dictLookup (get_all_sessions st now).2.1 sid =
        some { d with status := Status.disconnected }) ∧
    (now - d.last_update ≤ staleWindow →
      dictLookup (get_all_sessions st now).2.1 sid = some d) := by
  have base : (get_all_sessions st now).2.1 =
      st.active_sessions.map (fun kv => (kv.1, markStale now kv.2)) := rfl
  constructor
  · intro hs
    rw [base, dictLookup_map, h]
    simp [markStale, hs]
  · intro hs
    have hns : ¬ (now - d.last_update > staleWindow) := by omega
    rw [base, dictLookup_map, h]
    simp [markStale, hns]

/-- Witness for C5: a session last updated at time 0 is reported
`disconnected` at time 301 and still `active` at time 299 (4:59). -/
theorem stale_classification_witness :
    dictLookup (get_all_sessions
        { session_tokens := []
          active_sessions := [("s1",
            { candidate_name := "Alice", last_update := 0
              detection_score := 0, alerts := [], process_score := 0
              audio_score := 0, behavior_score := 0
              suspicious_processes := [], status := Status.active })] }
        301).2.1 "s1" =
      some { candidate_name := "Alice", last_update := 0
             detection_score := 0, alerts := [], process_score := 0
             audio_score := 0, behavior_score := 0
             suspicious_processes := [], status := Status.disconnected } ∧
    dictLookup (get_all_sessions
        { session_tokens := []
          active_sessions := [("s1",
            { candidate_name := "Alice", last_update := 0
              detection_score := 0, alerts := [], process_score := 0
              audio_score := 0, behavior_score := 0
              suspicious_processes := [], status := Status.active })] }
        299).2.1 "s1" =
      some { candidate_name := "Alice", last_update := 0
             detection_score := 0, alerts := [], process_score := 0
             audio_score := 0, behavior_score := 0
             suspicious_processes := [], status := Status.active } := by
  constructor
  · exact (stale_classification _ 301 "s1"
      { candidate_name := "Alice", last_update := 0
        detection_score := 0, alerts := [], process_score := 0
        audio_score := 0, behavior_score := 0
        suspicious_processes := [], status := Status.active }
      (by simp [dictLookup])).1 (by norm_num [staleWindow])
  · exact (stale_classification _ 299 "s1"
      { candidate_name := "Alice", last_update := 0
        detection_score := 0, alerts := [], process_score := 0
        audio_score := 0, behavior_score := 0
        suspicious_processes := [], status := Status.active }
      (by simp [dictLookup])).2 (by norm_num [staleWindow])

/-- C6: a successfully authenticated report activates the session and
overwrites its stored fields, and a second successful report leaves it
`active` (never back to `waiting`) while overwriting the fields and
refreshing `last_update` again. -/
theorem ingest_overwrite_idempotent (st : ServerState) (n1 n2 : Nat)
    (r1 r2 : Report) (tok : SessionTokenRec)
    (h : dictLookup st.session_tokens r1.session_id = some tok)
    (htok : tok.token = r1.token)
    (hsame : r2.session_id = r1.session_id)
    (htok2 : r2.token = r1.token) :
    dictLookup ((receive_detection_report st n1 r1).1).active_sessions
        r1.session_id =
      some { candidate_name := tok.candidate_name, last_update := n1
             detection_score := r1.detection_score, alerts := r1.alerts
             process_score := r1.process_score, audio_score := r1.audio_score
             behavior_score := r1.behavior_score
             suspicious_processes := r1.suspicious_processes
             status := Status.active } ∧
    dictLookup ((receive_detection_report
        (receive_detection_report st n1 r1).1 n2 r2).1).active_sessions
        r1.session_id =
      some { candidate_name := tok.candidate_name, last_update := n2
             detection_score := r2.detection_score, alerts := r2.alerts
             process_score := r2.process_score, audio_score := r2.audio_score
             behavior_score := r2.behavior_score
             suspicious_processes := r2.suspicious_processes
             status := Status.active } := by
  have e1 := ingest_success st n1 r1 tok h htok
  have hlk2 : dictLookup
      ((receive_detection_report st n1 r1).1).session_tokens r2.session_id =
      some { tok with status := Status.active } := by
    rw [e1, hsame]
    exact dictLookup_insert_self _ _ _
  have e2 := ingest_success _ n2 r2 { tok with status := Status.active }
    hlk2 (by simp [htok, htok2])
  constructor
  · rw [e1]
    exact dictLookup_insert_self _ _ _
  · rw [e2, hsame]
    simpa using dictLookup_insert_self _ _ _

/-- Witness for C6: two reports on the session created as `s1`. -/
theorem ingest_overwrite_idempotent_witness :
    dictLookup ((receive_detection_report
        { session_tokens := [("s1",
            { token := "t1", candidate_name := "Alice", created_at := 0
              status := Status.waiting })]
          active_sessions := [] } 5
        { session_id := "s1", token := "t1", detection_score := 1/2
          process_score := 0, audio_score := 0, behavior_score := 0
          alerts := [], suspicious_processes := [] }).1).active_sessions
        "s1" =
      some { candidate_name := "Alice", last_update := 5
             detection_score := 1/2, alerts := [], process_score := 0
             audio_score := 0, behavior_score := 0
             suspicious_processes := [], status := Status.active } ∧
    dictLookup ((receive_detection_report
        (receive_detection_report
          { session_tokens := [("s1",
              { token := "t1", candidate_name := "Alice", created_at := 0
                status := Status.waiting })]
            active_sessions := [] } 5
          { session_id := "s1", token := "t1", detection_score := 1/2
            process_score := 0, audio_score := 0, behavior_score := 0
            alerts := [], suspicious_processes := [] }).1 10
        { session_id := "s1", token := "t1", detection_score := 3/4
          process_score := 1, audio_score := 0, behavior_score := 0
          alerts := [], suspicious_processes := [] }).1).active_sessions
        "s1" =
      some { candidate_name := "Alice", last_update := 10
             detection_score := 3/4, alerts := [], process_score := 1
             audio_score := 0, behavior_score := 0
             suspicious_processes := [], status := Status.active } := by
  exact ingest_overwrite_idempotent _ 5 10 _ _
    { token := "t1", candidate_name := "Alice", created_at := 0
      status := Status.waiting }
    (by simp [dictLookup]) rfl rfl rfl

/-- C10: a session that was created but never successfully reported
(absent from `active_sessions`, present in `session_tokens` with status
`waiting`) is invisible to every query endpoint: absent from the session
list and its count, 404 on the detail query, and 404 with no state
change on end-session. -/
theorem waiting_session_invisible (st : ServerState) (now : Nat)
    (sid : String) (tok : SessionTokenRec)
    (_hcreated : dictLookup st.session_tokens sid = some tok)
    (_hwaiting : tok.status = Status.waiting)
    (h : dictLookup st.active_sessions sid = none) :
    (dictLookup (get_all_sessions st now).2.1 sid = none ∧
      (get_all_sessions st now).2.2 = (get_all_sessions st now).2.1.length) ∧
    get_session_details st sid = none ∧
    (end_session st now sid).2.1 = 404 ∧
    (end_session st now sid).1 = st := by
  refine ⟨⟨?_, ?_⟩, ?_, ?_, ?_⟩
  · rw [show (get_all_sessions st now).2.1 =
        st.active_sessions.map (fun kv => (kv.1, markStale now kv.2)) from rfl,
      dictLookup_map, h]
    rfl
  · rfl
  · exact h
  · simp [end_session, h]
  · simp [end_session, h]

/-- Witness for C10: the freshly created session `s1`, never reported. -/
theorem waiting_session_invisible_witness :
    (dictLookup (get_all_sessions
        (create_session { session_tokens := [], active_sessions := [] }
          0 "Alice" "s1" "t1") 7).2.1 "s1" = none ∧
      (get_all_sessions
        (create_session { session_tokens := [], active_sessions := [] }
          0 "Alice" "s1" "t1") 7).2.2 =
        (get_all_sessions
          (create_session { session_tokens := [], active_sessions := [] }
            0 "Alice" "s1" "t1") 7).2.1.length) ∧
    get_session_details
      (create_session { session_tokens := [], active_sessions := [] }
        0 "Alice" "s1" "t1") "s1" = none ∧
    (end_session
      (create_session { session_tokens := [], active_sessions := [] }
        0 "Alice" "s1" "t1") 7 "s1").2.1 = 404 ∧
    (end_session
      (create_session { session_tokens := [], active_sessions := [] }
        0 "Alice" "s1" "t1") 7 "s1").1 =
      create_session { session_tokens := [], active_sessions := [] }
        0 "Alice" "s1" "t1" := by
  exact waiting_session_invisible _ 7 "s1"
    { token := "t1", candidate_name := "Alice", created_at := 0
      status := Status.waiting }
    (by simp [create_session, dictInsert, dictLookup]) rfl rfl

/-- C4 counterexample: create `s1`, ingest an authenticated report
(status `active`), end the session (status `ended`), then a late
authenticated report arrives: the session's status returns to
`active`. -/
theorem ended_then_active_counterexample :
    (dictLookup ((end_session
        (receive_detection_report
          (create_session { session_tokens := [], active_sessions := [] }
            0 "Alice" "s1" "t1") 1
          { session_id := "s1", token := "t1", detection_score := 1/2
            process_score := 0, audio_score := 0, behavior_score := 0
            alerts := [], suspicious_processes := [] }).1 2 "s1").1).active_sessions
        "s1").map ActiveSession.status = some Status.ended ∧
    (dictLookup ((receive_detection_report
        (end_session
          (receive_detection_report
            (create_session { session_tokens := [], active_sessions := [] }
              0 "Alice" "s1" "t1") 1
            { session_id := "s1", token := "t1", detection_score := 1/2
              process_score := 0, audio_score := 0, behavior_score := 0
              alerts := [], suspicious_processes := [] }).1 2 "s1").1 3
        { session_id := "s1", token := "t1", detection_score := 1/2
          process_score := 0, audio_score := 0, behavior_score := 0
          alerts := [], suspicious_processes := [] }).1).active_sessions
        "s1").map ActiveSession.status = some Status.active := by
  constructor
  · simp [create_session, receive_detection_report, end_session,
      dictLookup, dictInsert]
  · simp [create_session, receive_detection_report, end_session,
      dictLookup, dictInsert]

/-- C4 (amended): after any single registry operation, a session whose
status was `ended` never becomes `waiting`; it becomes `active` exactly
when the operation is a successfully authenticated report for that
session (a late report un-ends it), and `disconnected` only by the
passive staleness classification of a list query. -/
theorem ended_forward_only (st : ServerState) (now : Nat) (op : Op)
    (sid : String) (d d' : ActiveSession)
    (h : dictLookup st.active_sessions sid = some d)
    (hend : d.status = Status.ended)
    (h' : dictLookup (applyOp st now op).active_sessions sid = some d') :
    d'.status ≠ Status.waiting ∧
      (d'.status = Status.active →
        ∃ r tok, op = Op.report r ∧ r.session_id = sid ∧
          dictLookup st.session_tokens sid = some tok ∧ tok.token = r.token) ∧
      (d'.status = Status.disconnected →
        op = Op.listSessions ∧ now - d.last_update > staleWindow) := by
  have unchanged : ∀ hstat : d'.status = Status.ended,
      d'.status ≠ Status.waiting ∧
        (d'.status = Status.active →
          ∃ r tok, op = Op.report r ∧ r.session_id = sid ∧
            dictLookup st.session_tokens sid = some tok ∧ tok.token = r.token) ∧
        (d'.status = Status.disconnected →
          op = Op.listSessions ∧ now - d.last_update > staleWindow) := by
    intro hstat
    refine ⟨by simp [hstat], fun hc => absurd (hstat.symm.trans hc) (by decide),
      fun hc => absurd (hstat.symm.trans hc) (by decide)⟩
  cases op with
  | create name sid' tokstr =>
    have e : (applyOp st now (Op.create name sid' tokstr)).active_sessions =
        st.active_sessions := rfl
    rw [e, h] at h'
    obtain rfl : d = d' := by injection h'
    exact unchanged hend
  | report r =>
    by_cases hs : r.session_id = sid
    · rcases hlk : dictLookup st.session_tokens r.session_id with _ | tok
      · have e : (applyOp st now (Op.report r)).active_sessions =
            st.active_sessions := by
          simp [applyOp, receive_detection_report, hlk]
        rw [e, h] at h'
        obtain rfl : d = d' := by injection h'
        exact unchanged hend
      · by_cases ht : tok.token = r.token
        · have e := ingest_success st now r tok hlk ht
          have e2 : (applyOp st now (Op.report r)).active_sessions =
              dictInsert st.active_sessions r.session_id
                { candidate_name := tok.candidate_name
                  last_update := now
                  detection_score := r.detection_score
                  alerts := r.alerts
                  process_score := r.process_score
                  audio_score := r.audio_score
                  behavior_score := r.behavior_score
                  suspicious_processes := r.suspicious_processes
                  status := Status.active } := by
            show ((receive_detection_report st now r).1).active_sessions = _
            rw [e]
          rw [e2, ← hs, dictLookup_insert_self] at h'
          have hd' : d'.status = Status.active := by
            injection h' with h''
            rw [← h'']
          refine ⟨by simp [hd'], fun _ => ⟨r, tok, rfl, hs, hs ▸ hlk, ht⟩,
            fun hc => absurd (hd'.symm.trans hc) (by decide)⟩
        · have e : (applyOp st now (Op.report r)).active_sessions =
              st.active_sessions := by
            simp [applyOp, receive_detection_report, hlk, ht]
          rw [e, h] at h'
          obtain rfl : d = d' := by injection h'
          exact unchanged hend
    · rcases hlk : dictLookup st.session_tokens r.session_id with _ | tok
      · have e : (applyOp st now (Op.report r)).active_sessions =
            st.active_sessions := by
          simp [applyOp, receive_detection_report, hlk]
        rw [e, h] at h'
        obtain rfl : d = d' := by injection h'
        exact unchanged hend
      · by_cases ht : tok.token = r.token
        · have e := ingest_success st now r tok hlk ht
          have e2 : (applyOp st now (Op.report r)).active_sessions =
              dictInsert st.active_sessions r.session_id
                { candidate_name := tok.candidate_name
                  last_update := now
                  detection_score := r.detection_score
                  alerts := r.alerts
                  process_score := r.process_score
                  audio_score := r.audio_score
                  behavior_score := r.behavior_score
                  suspicious_processes := r.suspicious_processes
                  status := Status.active } := by
            show ((receive_detection_report st now r).1).active_sessions = _
            rw [e]
          rw [e2, dictLookup_insert_other _ _ _ _ hs, h] at h'
          obtain rfl : d = d' := by injection h'
          exact unchanged hend
        · have e : (applyOp st now (Op.report r)).active_sessions =
              st.active_sessions := by
            simp [applyOp, receive_detection_report, hlk, ht]
          rw [e, h] at h'
          obtain rfl : d = d' := by injection h'
          exact unchanged hend
  | listSessions =>
    have e : (applyOp st now Op.listSessions).active_sessions =
        st.active_sessions.map (fun kv => (kv.1, markStale now kv.2)) := rfl
    rw [e, dictLookup_map, h] at h'
    have hd' : d' = markStale now d := by
      injection h' with h''
      exact h''.symm
    by_cases hstale : now - d.last_update > staleWindow
    · have hst : d'.status = Status.disconnected := by
        simp [hd', markStale, hstale]
      refine ⟨by simp [hst], fun hc => absurd (hst.symm.trans hc) (by decide),
        fun _ => ⟨rfl, hstale⟩⟩
    · have : d' = d := by simp [hd', markStale, hstale]
      subst this
      exact unchanged hend
  | details sid' =>
    have e : (applyOp st now (Op.details sid')).active_sessions =
        st.active_sessions := rfl
    rw [e, h] at h'
    obtain rfl : d = d' := by injection h'
    exact unchanged hend
  | endSession sid' =>
    rcases hlk : dictLookup st.active_sessions sid' with _ | d0
    · have e : (applyOp st now (Op.endSession sid')).active_sessions =
          st.active_sessions := by
        simp [applyOp, end_session, hlk]
      rw [e, h] at h'
      obtain rfl : d = d' := by injection h'
      exact unchanged hend
    · have e : (applyOp st now (Op.endSession sid')).active_sessions =
          dictInsert st.active_sessions sid'
            { d0 with status := Status.ended } := by
        simp [applyOp, end_session, hlk]
      by_cases hss : sid' = sid
      · rw [e, hss, dictLookup_insert_self] at h'
        have hst : d'.status = Status.ended := by
          injection h' with h''
          rw [← h'']
        exact unchanged hst
      · rw [e, dictLookup_insert_other _ _ _ _ hss, h] at h'
        obtain rfl : d = d' := by injection h'
        exact unchanged hend

/-- Witness for C4 (amended): an `ended` session stays away from
`waiting` under an `end-session` request. -/
theorem ended_forward_only_witness :
    ({ candidate_name := "Alice", last_update := 0, detection_score := 0
       alerts := [], process_score := 0, audio_score := 0
       behavior_score := 0, suspicious_processes := []
       status := Status.ended } : ActiveSession).status ≠ Status.waiting := by
  exact (ended_forward_only
    { session_tokens := []
      active_sessions := [("s1",
        { candidate_name := "Alice", last_update := 0
          detection_score := 0, alerts := [], process_score := 0
          audio_score := 0, behavior_score := 0
          suspicious_processes := [], status := Status.ended })] }
    0 (Op.endSession "s1") "s1"
    { candidate_name := "Alice", last_update := 0, detection_score := 0
      alerts := [], process_score := 0, audio_score := 0
      behavior_score := 0, suspicious_processes := []
      status := Status.ended }
    { candidate_name := "Alice", last_update := 0, detection_score := 0
      alerts := [], process_score := 0, audio_score := 0
      behavior_score := 0, suspicious_processes := []
      status := Status.ended }
    (by simp [dictLookup]) rfl
    (by simp [applyOp, end_session, dictLookup, dictInsert])).1

/-- C7 counterexample: with 9 recorded scores, a cycle that records a
10th score whose rolling average of the last 10 is 1 (> 0.75) appends no
alert, because the source requires `len(detection_scores) > 10`
strictly. -/
theorem fused_alert_at_exactly_ten_counterexample :
    (analyze_patterns_cycle
        { detection_scores := [1, 1, 1, 1, 1, 1, 1, 1, 1], alerts := [] }
        { process_score := 1, audio_score := 1,
          behavior_score := 1 }).detection_scores.length = 10 ∧
      mean (lastN 10 (analyze_patterns_cycle
        { detection_scores := [1, 1, 1, 1, 1, 1, 1, 1, 1], alerts := [] }
        { process_score := 1, audio_score := 1,
          behavior_score := 1 }).detection_scores) > 75/100 ∧
      (analyze_patterns_cycle
        { detection_scores := [1, 1, 1, 1, 1, 1, 1, 1, 1], alerts := [] }
        { process_score := 1, audio_score := 1,
          behavior_score := 1 }).alerts = [] := by
  norm_num [analyze_patterns_cycle, predict, rule_based_prediction,
    dequeAppend, lastN, mean]

/-- C7 (amended): in each analysis cycle the new prediction is recorded
(deque of capacity 100), and a CRITICAL `AI_DETECTION` alert is appended
exactly when, after recording, strictly more than 10 scores are retained
and the rolling average of the last 10 exceeds 0.75 — so no alert can
fire in the cycle where exactly 10 scores have been recorded. -/
theorem fused_alert_condition (st : DetectorState) (f : Features) :
    ((analyze_patterns_cycle st f).detection_scores =
      dequeAppend 100 st.detection_scores (predict f)) ∧
    ((analyze_patterns_cycle st f).alerts =
      if 10 < (dequeAppend 100 st.detection_scores (predict f)).length ∧
          mean (lastN 10 (dequeAppend 100 st.detection_scores (predict f))) >
            75/100 then
        st.alerts ++
          [{ ty := AlertTy.ai_detection, severity := Severity.critical }]
      else st.alerts) := by
  by_cases h1 : 10 < (dequeAppend 100 st.detection_scores (predict f)).length
  · by_cases h2 : mean (lastN 10
        (dequeAppend 100 st.detection_scores (predict f))) > 75/100
    · constructor <;> simp [analyze_patterns_cycle, h1, h2]
    · constructor <;> simp [analyze_patterns_cycle, h1, h2]
  · constructor <;> simp [analyze_patterns_cycle, h1]

/-- C8 counterexample: in the main detector's audio monitor, features
with `pause_pattern_score = 0.8 > 0.7` but `fluency_score = 0` append no
alert, contradicting "regardless of the fluency_score value". -/
theorem audio_alert_requires_fluency_counterexample :
    (8:ℚ)/10 > 7/10 ∧
      main_monitor_audio_cycle []
        (some { pause_pattern_score := 8/10, fluency_score := 0 }) = [] := by
  norm_num [main_monitor_audio_cycle]

/-- C8 (amended): the client detector appends a MEDIUM `AUDIO_ANOMALY`
alert whenever `pause_pattern_score > 0.7`, regardless of fluency; the
main detector appends one exactly when both `pause_pattern_score > 0.7`
and `fluency_score > 0.8`, and in every case the severity is MEDIUM,
never higher. -/
theorem audio_alert_conditions :
    (∀ (alerts : List Alert) (af : AudioFeatures),
      af.pause_pattern_score > 7/10 →
        client_monitor_audio_cycle alerts (some af) =
          alerts ++
            [{ ty := AlertTy.audio_anomaly, severity := Severity.medium }]) ∧
    (∀ (alerts : List Alert) (af : AudioFeatures),
      main_monitor_audio_cycle alerts (some af) =
        if af.pause_pattern_score > 7/10 ∧ af.fluency_score > 8/10 then
          alerts ++
            [{ ty := AlertTy.audio_anomaly, severity := Severity.medium }]
        else alerts) := by
  constructor
  · intro alerts af h
    simp [client_monitor_audio_cycle, h]
  · intro alerts af
    rfl

/-- Witness for C8 (amended), client monitor at pause score 0.8. -/
theorem audio_alert_conditions_witness :
    client_monitor_audio_cycle []
        (some { pause_pattern_score := 8/10, fluency_score := 0 }) =
      [] ++ [{ ty := AlertTy.audio_anomaly, severity := Severity.medium }] := by
  exact audio_alert_conditions.1 []
    { pause_pattern_score := 8/10, fluency_score := 0 } (by norm_num)

end AIDetect
